import Mathlib

/-!
Verification of the resilient HTTP request executor and service adapters of
the CiteGuard bibliographic client (crossref_api_client.py).

The network is modelled by an oracle `outcomes : Nat → AttemptResult` giving
the result of each HTTP attempt (indexed by the zero-based attempt counter of
the retry loop).  The executor `_request_with_retries` is embedded as a pure
function returning a `Trace`: the final result (decoded body or classified
terminal error), the list of backoff sleep durations performed, and the list
of HTTP requests issued, in order.
-/

namespace CiteGuard

/-! Configuration constants, lines 48-62 of crossref_api_client.py.
The environment variable CROSSREF_MAIL is modelled as an `Option String`
parameter `env` (`none` = unset). -/

def APP_NAME : String := "CiteGuard"

def APP_VERSION : String := "0.5"

def DEFAULT_EMAIL : String := "anonymous@example.com"

def EMAIL (env : Option String) : String := env.getD DEFAULT_EMAIL

def USER_AGENT (env : Option String) : String :=
  APP_NAME ++ "/" ++ APP_VERSION ++ " (mailto:" ++ EMAIL env ++ ")"

def HEADERS (env : Option String) : List (String × String) :=
  [("User-Agent", USER_AGENT env), ("Accept", "application/json")]

def CROSSREF_BASE_URL : String := "https://api.crossref.org"

def OPENLIB_BASE_URL : String := "https://openlibrary.org/api/books"

def DEFAULT_TIMEOUT : Int := 30

def DEFAULT_RETRIES : Int := 3

def BACKOFF_FACTOR : Nat := 1

/-! A JSON-like value, the decoded body of a response. Objects are
association lists (Python dicts, first binding wins on lookup). -/

inductive Json where
  | null : Json
  | bool (b : Bool) : Json
  | num (n : Int) : Json
  | str (s : String) : Json
  | arr (elems : List Json) : Json
  | obj (fields : List (String × Json)) : Json

/-- Python dict.get(key, default) on a JSON object. -/
def Json.getD : Json → String → Json → Json
  | .obj fields, key, d =>
    match fields.find? (fun kv => kv.fst == key) with
    | some kv => kv.snd
    | none => d
  | _, _, d => d

/-- Python dict[key] lookup (successful case) on a JSON object. -/
def Json.getKey : Json → String → Option Json
  | .obj fields, key => (fields.find? (fun kv => kv.fst == key)).map (fun kv => kv.snd)
  | _, _ => none

/-- Python truth-value test `not x` (true when x is falsy). -/
def Json.isFalsy : Json → Bool
  | .null => true
  | .bool b => !b
  | .num n => n == 0
  | .str s => s == ""
  | .arr elems => elems.isEmpty
  | .obj fields => fields.isEmpty

/-! The outcome of one HTTP attempt, as seen by the try-block of the retry
loop: a response (with status code, reason phrase and decoded JSON body), a
requests.exceptions.Timeout, or another requests.exceptions.RequestException
with a cause description. `raise_for_status` raises an HTTPError exactly for
status codes in [400, 600). -/

inductive AttemptResult where
  | response (status : Nat) (reason : String) (body : Json)
  | timeoutExc : AttemptResult
  | requestExc (cause : String) : AttemptResult

/-- A transient (retryable) failure: timeout, HTTP 5xx, or other network
exception. -/
def isTransient : AttemptResult → Bool
  | .response status _ _ => 500 ≤ status && status < 600
  | .timeoutExc => true
  | .requestExc _ => true

/-- One outbound HTTP request as issued by requests.request. -/
structure RequestDescriptor where
  method : String
  url : String
  headers : List (String × String)
  params : List (String × String)
  timeout : Int
deriving DecidableEq

/-- A terminal error raised by the executor (all are HTTPRequestError in the
source, distinguished here by raise site; the message is the str() of the
exception). -/
inductive ReqError where
  | timeoutErr (msg : String)
  | httpErr (status : Nat) (msg : String)
  | networkErr (msg : String)
  | bugErr (msg : String)
deriving DecidableEq

def ReqError.message : ReqError → String
  | .timeoutErr m => m
  | .httpErr _ m => m
  | .networkErr m => m
  | .bugErr m => m

/-- Message of the timeout raise, line 91-93. -/
def timeoutMsg (timeout : Int) (attempt : Nat) (retries : Int) : String :=
  "[Error] Request timed out after " ++ toString timeout ++ "s (attempt " ++
    toString (attempt + 1) ++ "/" ++ toString retries ++ ") – giving up."

/-- Message of the HTTP-status raise, line 99-101. -/
def httpMsg (status : Nat) (reason : String) (url : String) : String :=
  "[Error] HTTP " ++ toString status ++ " " ++ reason ++ " – " ++ url

/-- Message of the network-error raise, line 106. -/
def networkMsg (cause : String) : String :=
  "[Error] Network error: " ++ cause

/-- Message of the fallthrough raise, line 110. -/
def bugMsg : String :=
  "[Bug] Reached end of _request_with_retries without returning."

/-- Trace of one call of the executor. -/
structure Trace where
  result : Except ReqError Json
  sleeps : List Nat
  requests : List RequestDescriptor

/-- The body of `for attempt in range(retries)`, lines 82-106.  `attempt` is
the current zero-based loop counter and `remaining` the number of loop
iterations left (`retries.toNat - attempt` at the entry point); when it hits
zero the loop exits to the fallthrough raise of line 110. -/
def retryLoop (req : RequestDescriptor) (retries : Int)
    (outcomes : Nat → AttemptResult) : Nat → Nat → Trace
  | _, 0 => ⟨.error (.bugErr bugMsg), [], []⟩
  | attempt, remaining + 1 =>
    match outcomes attempt with
    | .response status reason body =>
      if 400 ≤ status ∧ status < 600 then
        if 500 ≤ status ∧ (attempt : Int) < retries - 1 then
          let t := retryLoop req retries outcomes (attempt + 1) remaining
          ⟨t.result, BACKOFF_FACTOR * 2 ^ attempt :: t.sleeps, req :: t.requests⟩
        else
          ⟨.error (.httpErr status (httpMsg status reason req.url)), [], [req]⟩
      else
        ⟨.ok body, [], [req]⟩
    | .timeoutExc =>
      if (attempt : Int) < retries - 1 then
        let t := retryLoop req retries outcomes (attempt + 1) remaining
        ⟨t.result, BACKOFF_FACTOR * 2 ^ attempt :: t.sleeps, req :: t.requests⟩
      else
        ⟨.error (.timeoutErr (timeoutMsg req.timeout attempt retries)), [], [req]⟩
    | .requestExc cause =>
      if (attempt : Int) < retries - 1 then
        let t := retryLoop req retries outcomes (attempt + 1) remaining
        ⟨t.result, BACKOFF_FACTOR * 2 ^ attempt :: t.sleeps, req :: t.requests⟩
      else
        ⟨.error (.networkErr (networkMsg cause)), [], [req]⟩

/-- Lines 72-110: the exponential-backoff retry wrapper.  In Python,
`range(retries)` of a non-positive int is empty, hence `retries.toNat`
iterations. -/
def _request_with_retries (method url : String)
    (headers : List (String × String)) (params : List (String × String))
    (timeout retries : Int) (outcomes : Nat → AttemptResult) : Trace :=
  retryLoop ⟨method, url, headers, params, timeout⟩ retries outcomes 0 retries.toNat

/-- The terminal error raised when the final attempt fails with the given
transient outcome: the Timeout, UpstreamServerError/ClientRequestError, or
NetworkError raise site corresponding to the last attempt's failure kind. -/
def terminalErr (timeout retries : Int) (url : String) (attempt : Nat) :
    AttemptResult → ReqError
  | .response status reason _ => .httpErr status (httpMsg status reason url)
  | .timeoutExc => .timeoutErr (timeoutMsg timeout attempt retries)
  | .requestExc cause => .networkErr (networkMsg cause)

/-! Adapters.  Each is split into the executor call (the Trace) and the
post-processing of its result. -/

/-- Errors of the adapter layer: a propagated executor error (bare `raise`),
the SystemExit of crossref_get's 404 remap, the SystemExit of
crossref_search's empty-result branch, and an uncaught Python KeyError. -/
inductive AdapterError where
  | fromExecutor (e : ReqError)
  | notFound (msg : String)
  | emptyResult (msg : String)
  | keyError (key : String)

/-- The executor call of crossref_search, lines 124-132. -/
def crossref_searchTrace (query : String) (rows : Int) (timeout retries : Int)
    (env : Option String) (outcomes : Nat → AttemptResult) : Trace :=
  _request_with_retries "GET" (CROSSREF_BASE_URL ++ "/works") (HEADERS env)
    [("query", query), ("rows", toString rows)] timeout retries outcomes

/-- Lines 117-136: search CrossRef works via full-text query. -/
def crossref_search (query : String) (rows : Int) (timeout retries : Int)
    (env : Option String) (outcomes : Nat → AttemptResult) :
    Except AdapterError Json :=
  match (crossref_searchTrace query rows timeout retries env outcomes).result with
  | .error e => .error (.fromExecutor e)
  | .ok body =>
    let items := (body.getD "message" (.obj [])).getD "items" (.arr [])
    if items.isFalsy then
      .error (.emptyResult "[Info] No results returned – check your query.")
    else
      .ok items

/-- The executor call of crossref_get, lines 146-152. -/
def crossref_getTrace (doi : String) (timeout retries : Int)
    (env : Option String) (outcomes : Nat → AttemptResult) : Trace :=
  _request_with_retries "GET" (CROSSREF_BASE_URL ++ "/works/" ++ doi)
    (HEADERS env) [] timeout retries outcomes

/-- Python substring test `needle in haystack`, on explicit char lists. -/
def startsWithL : List Char → List Char → Bool
  | [], _ => true
  | _ :: _, [] => false
  | a :: as, b :: bs => a == b && startsWithL as bs

def containsSeq (pat : List Char) : List Char → Bool
  | [] => startsWithL pat []
  | b :: bs => startsWithL pat (b :: bs) || containsSeq pat bs

def pySubstr (needle haystack : String) : Bool :=
  containsSeq needle.data haystack.data

/-- Lines 139-158: retrieve one work record by DOI; remaps an executor error
whose message contains the substring HTTP 404 to a DOI-not-found exit. -/
def crossref_get (doi : String) (timeout retries : Int) (env : Option String)
    (outcomes : Nat → AttemptResult) : Except AdapterError Json :=
  match (crossref_getTrace doi timeout retries env outcomes).result with
  | .error e =>
    if pySubstr "HTTP 404" e.message then
      .error (.notFound ("[Error] DOI not found on CrossRef: " ++ doi))
    else
      .error (.fromExecutor e)
  | .ok body =>
    match body.getKey "message" with
    | some v => .ok v
    | none => .error (.keyError "message")

/-- Line 170: isbn.replace("-", "").strip() — remove every hyphen, then trim
surrounding whitespace. -/
def stripEnds (l : List Char) : List Char :=
  ((l.dropWhile Char.isWhitespace).reverse.dropWhile Char.isWhitespace).reverse

def normalizeIsbn (s : String) : String :=
  String.mk (stripEnds (s.data.filter (fun c => c != '-')))

/-- The executor call of openlib_get, lines 170-179.  Note: the headers are
only the User-Agent entry. -/
def openlib_getTrace (isbn : String) (timeout retries : Int)
    (env : Option String) (outcomes : Nat → AttemptResult) : Trace :=
  _request_with_retries "GET" OPENLIB_BASE_URL
    [("User-Agent", USER_AGENT env)]
    [("bibkeys", "ISBN:" ++ normalizeIsbn isbn), ("format", "json"),
     ("jscmd", "data")]
    timeout retries outcomes

/-- Lines 164-181: retrieve book metadata by ISBN via Open Library. -/
def openlib_get (isbn : String) (timeout retries : Int) (env : Option String)
    (outcomes : Nat → AttemptResult) : Except AdapterError Json :=
  match (openlib_getTrace isbn timeout retries env outcomes).result with
  | .error e => .error (.fromExecutor e)
  | .ok body => .ok (body.getD ("ISBN:" ++ normalizeIsbn isbn) (.obj []))

/-! Core lemmas about the retry loop. -/

theorem retryLoop_zero (req : RequestDescriptor) (retries : Int)
    (outcomes : Nat → AttemptResult) (attempt : Nat) :
    retryLoop req retries outcomes attempt 0 =
      ⟨.error (.bugErr bugMsg), [], []⟩ := rfl

theorem retryLoop_transient_step (req : RequestDescriptor) (retries : Int)
    (outcomes : Nat → AttemptResult) (attempt remaining : Nat)
    (ht : isTransient (outcomes attempt) = true)
    (hlt : (attempt : Int) < retries - 1) :
    retryLoop req retries outcomes attempt (remaining + 1) =
      ⟨(retryLoop req retries outcomes (attempt + 1) remaining).result,
       BACKOFF_FACTOR * 2 ^ attempt ::
         (retryLoop req retries outcomes (attempt + 1) remaining).sleeps,
       req :: (retryLoop req retries outcomes (attempt + 1) remaining).requests⟩ := by
  cases h : outcomes attempt with
  | response status reason body =>
    have hs : 500 ≤ status ∧ status < 600 := by
      have := ht
      rw [h] at this
      simpa [isTransient] using this
    have h400 : 400 ≤ status := by omega
    simp [retryLoop, h, h400, hs.1, hs.2, hlt]
  | timeoutExc => simp [retryLoop, h, hlt]
  | requestExc cause => simp [retryLoop, h, hlt]

theorem retryLoop_exit_ok (req : RequestDescriptor) (retries : Int)
    (outcomes : Nat → AttemptResult) (attempt remaining : Nat)
    (status : Nat) (reason : String) (body : Json)
    (h : outcomes attempt = .response status reason body)
    (hs : ¬(400 ≤ status ∧ status < 600)) :
    retryLoop req retries outcomes attempt (remaining + 1) =
      ⟨.ok body, [], [req]⟩ := by
  simp [retryLoop, h, hs]

theorem retryLoop_exit_http (req : RequestDescriptor) (retries : Int)
    (outcomes : Nat → AttemptResult) (attempt remaining : Nat)
    (status : Nat) (reason : String) (body : Json)
    (h : outcomes attempt = .response status reason body)
    (h46 : 400 ≤ status ∧ status < 600)
    (hno : ¬(500 ≤ status ∧ (attempt : Int) < retries - 1)) :
    retryLoop req retries outcomes attempt (remaining + 1) =
      ⟨.error (.httpErr status (httpMsg status reason req.url)), [], [req]⟩ := by
  simp [retryLoop, h, h46.1, h46.2, hno]

theorem retryLoop_exit_timeout (req : RequestDescriptor) (retries : Int)
    (outcomes : Nat → AttemptResult) (attempt remaining : Nat)
    (h : outcomes attempt = .timeoutExc)
    (hno : ¬((attempt : Int) < retries - 1)) :
    retryLoop req retries outcomes attempt (remaining + 1) =
      ⟨.error (.timeoutErr (timeoutMsg req.timeout attempt retries)), [], [req]⟩ := by
  simp [retryLoop, h, hno]

theorem retryLoop_exit_network (req : RequestDescriptor) (retries : Int)
    (outcomes : Nat → AttemptResult) (attempt remaining : Nat) (cause : String)
    (h : outcomes attempt = .requestExc cause)
    (hno : ¬((attempt : Int) < retries - 1)) :
    retryLoop req retries outcomes attempt (remaining + 1) =
      ⟨.error (.networkErr (networkMsg cause)), [], [req]⟩ := by
  simp [retryLoop, h, hno]

/-- Running the loop over k consecutive transient failures (with attempts
left after them) accumulates exactly the k exponential-backoff sleeps and k
requests, then continues from attempt + k. -/
theorem retryLoop_transient_seg (req : RequestDescriptor) (retries : Int)
    (outcomes : Nat → AttemptResult) (k : Nat) :
    ∀ attempt : Nat,
      (∀ i, i < k → isTransient (outcomes (attempt + i)) = true) →
      ((attempt : Int) + k < retries) →
      retryLoop req retries outcomes attempt (retries.toNat - attempt) =
        ⟨(retryLoop req retries outcomes (attempt + k)
            (retries.toNat - (attempt + k))).result,
         (List.range k).map (fun i => BACKOFF_FACTOR * 2 ^ (attempt + i)) ++
           (retryLoop req retries outcomes (attempt + k)
             (retries.toNat - (attempt + k))).sleeps,
         List.replicate k req ++
           (retryLoop req retries outcomes (attempt + k)
             (retries.toNat - (attempt + k))).requests⟩ := by
  induction k with
  | zero => intro attempt _ _; simp
  | succ k ih =>
    intro attempt ht hk
    have hrem : retries.toNat - attempt = (retries.toNat - (attempt + 1)) + 1 := by
      omega
    have hlt : (attempt : Int) < retries - 1 := by
      have := hk
      push_cast at this
      omega
    have ht0 : isTransient (outcomes attempt) = true := by
      simpa using ht 0 (by omega)
    have ih2 := ih (attempt + 1)
      (fun i hi => by
        have := ht (i + 1) (by omega)
        simpa [show attempt + (i + 1) = attempt + 1 + i by omega] using this)
      (by push_cast; push_cast at hk; omega)
    rw [hrem, retryLoop_transient_step req retries outcomes attempt _ ht0 hlt, ih2]
    have hsh : attempt + 1 + k = attempt + (k + 1) := by omega
    rw [hsh]
    refine congrArg₂ (Trace.mk _) ?_ ?_
    · rw [List.range_succ_eq_map, List.map_cons, List.map_map, List.cons_append]
      have : ((fun i => BACKOFF_FACTOR * 2 ^ (attempt + i)) ∘ Nat.succ) =
          fun i => BACKOFF_FACTOR * 2 ^ (attempt + 1 + i) := by
        funext i
        simp only [Function.comp_apply]
        rw [show attempt + Nat.succ i = attempt + 1 + i by omega]
      simp [this]
    · rw [List.replicate_succ, List.cons_append]

/-- As long as the loop counter is still below retries (the loop invariant of
the source: the loop body runs with attempt in range(retries)), the loop
never produces the internal-bug error. -/
theorem retryLoop_no_bug (req : RequestDescriptor) (retries : Int)
    (outcomes : Nat → AttemptResult) :
    ∀ (remaining attempt : Nat), (attempt : Int) < retries →
      remaining = retries.toNat - attempt →
      ∀ m, (retryLoop req retries outcomes attempt remaining).result ≠
        .error (.bugErr m) := by
  intro remaining
  induction remaining with
  | zero =>
    intro attempt h1 h2 m
    exfalso
    omega
  | succ n ih =>
    intro attempt h1 h2 m
    cases hoc : outcomes attempt with
    | response status reason body =>
      simp only [retryLoop, hoc]
      split
      · split
        · next hcond =>
          simpa using ih (attempt + 1) (by omega) (by omega) m
        · simp
      · simp
    | timeoutExc =>
      simp only [retryLoop, hoc]
      split
      · next hcond =>
        simpa using ih (attempt + 1) (by omega) (by omega) m
      · simp
    | requestExc cause =>
      simp only [retryLoop, hoc]
      split
      · next hcond =>
        simpa using ih (attempt + 1) (by omega) (by omega) m
      · simp

/-- Every request recorded in a loop trace is the one request descriptor the
executor was called with. -/
theorem retryLoop_mem_requests (req : RequestDescriptor) (retries : Int)
    (outcomes : Nat → AttemptResult) :
    ∀ (remaining attempt : Nat) (r : RequestDescriptor),
      r ∈ (retryLoop req retries outcomes attempt remaining).requests →
      r = req := by
  intro remaining
  induction remaining with
  | zero => intro attempt r h; simp [retryLoop_zero] at h
  | succ n ih =>
    intro attempt r h
    cases hoc : outcomes attempt with
    | response status reason body =>
      simp only [retryLoop, hoc] at h
      split at h
      · split at h
        · simp only [List.mem_cons] at h
          rcases h with h | h
          · exact h
          · exact ih _ r h
        · simpa using h
      · simpa using h
    | timeoutExc =>
      simp only [retryLoop, hoc] at h
      split at h
      · simp only [List.mem_cons] at h
        rcases h with h | h
        · exact h
        · exact ih _ r h
      · simpa using h
    | requestExc cause =>
      simp only [retryLoop, hoc] at h
      split at h
      · simp only [List.mem_cons] at h
        rcases h with h | h
        · exact h
        · exact ih _ r h
      · simpa using h

/-- A 2xx (or any non-error-status) response on the first attempt: the
executor returns its body at once, with no sleep and one request. -/
theorem request_success_first (method url : String)
    (headers params : List (String × String)) (timeout retries : Int)
    (outcomes : Nat → AttemptResult) (status : Nat) (reason : String)
    (body : Json) (hpos : 1 ≤ retries)
    (h0 : outcomes 0 = .response status reason body)
    (hok : ¬(400 ≤ status ∧ status < 600)) :
    _request_with_retries method url headers params timeout retries outcomes =
      ⟨.ok body, [], [⟨method, url, headers, params, timeout⟩]⟩ := by
  unfold _request_with_retries
  obtain ⟨r, hr⟩ : ∃ r, retries.toNat = r + 1 := ⟨retries.toNat - 1, by omega⟩
  rw [hr]
  exact retryLoop_exit_ok _ _ _ _ _ _ _ _ h0 hok

/-! Lemmas about the Python substring test. -/

theorem startsWithL_self_append (l suf : List Char) :
    startsWithL l (l ++ suf) = true := by
  induction l with
  | nil => rfl
  | cons a as ih => simp [startsWithL, ih]

theorem containsSeq_here (pat suf : List Char) :
    containsSeq pat (pat ++ suf) = true := by
  cases hps : pat ++ suf with
  | nil =>
    have hp : pat = [] := by cases pat <;> simp_all
    subst hp
    rfl
  | cons b bs =>
    rw [containsSeq, ← hps, startsWithL_self_append]
    simp

theorem containsSeq_append (pat pre suf : List Char) :
    containsSeq pat (pre ++ (pat ++ suf)) = true := by
  induction pre with
  | nil => simpa using containsSeq_here pat suf
  | cons b bs ih => simp [containsSeq, ih]

/-! Lemmas about whitespace stripping and ISBN normalization. -/

theorem dropWhile_twice (p : Char → Bool) (l : List Char) :
    (l.dropWhile p).dropWhile p = l.dropWhile p := by
  induction l with
  | nil => rfl
  | cons a as ih => cases h : p a <;> simp [List.dropWhile_cons, h, ih]

/-- If dropWhile strips nothing from a list, it strips nothing from any
front segment of it. -/
theorem dropWhile_front_seg (p : Char → Bool) (l₁ l₂ : List Char)
    (h : (l₁ ++ l₂).dropWhile p = l₁ ++ l₂) : l₁.dropWhile p = l₁ := by
  cases l₁ with
  | nil => rfl
  | cons a as =>
    have hpa : p a = false := by
      cases hp : p a
      · rfl
      · exfalso
        rw [List.cons_append, List.dropWhile_cons, hp] at h
        simp only [if_true] at h
        have hle : ((as ++ l₂).dropWhile p).length ≤ (as ++ l₂).length :=
          (List.dropWhile_sublist _).length_le
        rw [h] at hle
        simp at hle
    simp [List.dropWhile_cons, hpa]

/-- The right strip keeps a front segment of the list intact. -/
theorem stripR_front_seg (p : Char → Bool) (l : List Char) :
    ∃ t, (l.reverse.dropWhile p).reverse ++ t = l := by
  refine ⟨(l.reverse.takeWhile p).reverse, ?_⟩
  rw [← List.reverse_append, List.takeWhile_append_dropWhile, List.reverse_reverse]

theorem stripEnds_idem (l : List Char) :
    stripEnds (stripEnds l) = stripEnds l := by
  unfold stripEnds
  set p := Char.isWhitespace with hp
  set u := l.dropWhile p with hu
  set v := (u.reverse.dropWhile p).reverse with hv
  have hvrev : v.reverse = u.reverse.dropWhile p := by
    rw [hv, List.reverse_reverse]
  have hdu : u.dropWhile p = u := by rw [hu]; exact dropWhile_twice p l
  have hdv : v.dropWhile p = v := by
    obtain ⟨t, ht⟩ := stripR_front_seg p u
    exact dropWhile_front_seg p v t (by rw [ht]; exact hdu)
  rw [hdv, hvrev, dropWhile_twice, ← hvrev, List.reverse_reverse]

theorem mem_stripEnds (x : Char) (l : List Char) (h : x ∈ stripEnds l) :
    x ∈ l := by
  unfold stripEnds at h
  rw [List.mem_reverse] at h
  have h2 := (List.dropWhile_sublist _).subset h
  rw [List.mem_reverse] at h2
  exact (List.dropWhile_sublist _).subset h2

theorem normalizeIsbn_idem (s : String) :
    normalizeIsbn (normalizeIsbn s) = normalizeIsbn s := by
  unfold normalizeIsbn
  show String.mk (stripEnds ((stripEnds (s.data.filter fun c => c != '-')).filter
    fun c => c != '-')) = _
  have hfilt : (stripEnds (s.data.filter fun c => c != '-')).filter
      (fun c => c != '-') = stripEnds (s.data.filter fun c => c != '-') := by
    refine List.filter_eq_self.mpr (fun a ha => ?_)
    exact (List.mem_filter.mp (mem_stripEnds a _ ha)).2
  rw [hfilt, stripEnds_idem]

/-! Lemmas relating dict.get with default to plain dict lookup. -/

theorem getD_of_getKey_none (fields : List (String × Json)) (key : String)
    (d : Json) (h : Json.getKey (.obj fields) key = none) :
    Json.getD (.obj fields) key d = d := by
  simp only [Json.getKey] at h
  simp only [Json.getD]
  cases hf : fields.find? (fun kv => kv.fst == key) with
  | none => simp [hf]
  | some kv => rw [hf] at h; simp at h

theorem getD_of_getKey_some (fields : List (String × Json)) (key : String)
    (d v : Json) (h : Json.getKey (.obj fields) key = some v) :
    Json.getD (.obj fields) key d = v := by
  simp only [Json.getKey] at h
  simp only [Json.getD]
  cases hf : fields.find? (fun kv => kv.fst == key) with
  | none => rw [hf] at h; simp at h
  | some kv =>
    rw [hf] at h
    simp only [Option.map_some'] at h
    simpa using h

theorem str_data_append (s t : String) : (s ++ t).data = s.data ++ t.data := rfl

theorem pySubstr_httpMsg_404 (reason url : String) :
    pySubstr "HTTP 404" (httpMsg 404 reason url) = true := by
  unfold pySubstr httpMsg
  have h1 : ("[Error] HTTP " ++ toString (404 : Nat) ++ " " ++ reason ++ " – "
        ++ url).data =
      ("[Error] HTTP " ++ toString (404 : Nat) ++ " ").data ++
        (reason.data ++ (" – ".data ++ url.data)) := by
    simp only [str_data_append, List.append_assoc]
  rw [h1]
  have h2 : ("[Error] HTTP " ++ toString (404 : Nat) ++ " ").data =
      "[Error] ".data ++ ("HTTP 404".data ++ [' ']) := by decide
  rw [h2, List.append_assoc, List.append_assoc]
  exact containsSeq_append _ _ _

/-- C1: for every sequence of k transient failures (transport timeout, HTTP
5xx status, or other network-level exception) with k < retries followed by a
2xx success, the executor returns the successful body immediately after the
success (exactly k+1 requests are issued) and performs exactly k sleeps, of
durations BACKOFF_FACTOR times 2^0, 2^1, ..., 2^(k-1). -/
theorem retry_success_after_transient_prefix
    (method url : String) (headers params : List (String × String))
    (timeout retries : Int) (outcomes : Nat → AttemptResult)
    (k status : Nat) (reason : String) (body : Json)
    (hk : (k : Int) < retries)
    (ht : ∀ i, i < k → isTransient (outcomes i) = true)
    (hs : outcomes k = .response status reason body)
    (h2xx : 200 ≤ status ∧ status < 300) :
    (_request_with_retries method url headers params timeout retries
        outcomes).result = .ok body ∧
    (_request_with_retries method url headers params timeout retries
        outcomes).sleeps =
      (List.range k).map (fun i => BACKOFF_FACTOR * 2 ^ i) ∧
    (_request_with_retries method url headers params timeout retries
        outcomes).requests.length = k + 1 := by
  have hseg := retryLoop_transient_seg ⟨method, url, headers, params, timeout⟩
    retries outcomes k 0 (by simpa using ht) (by simpa using hk)
  simp only [Nat.sub_zero, Nat.zero_add] at hseg
  obtain ⟨r, hr⟩ : ∃ r, retries.toNat - k = r + 1 :=
    ⟨retries.toNat - k - 1, by omega⟩
  rw [hr, retryLoop_exit_ok _ _ _ _ _ _ _ _ hs (by omega)] at hseg
  unfold _request_with_retries
  rw [hseg]
  refine ⟨rfl, by simp, by simp⟩

theorem retry_success_after_transient_prefix_witness :
    (_request_with_retries "GET" "https://api.crossref.org/works" [] [] 30 2
        (fun i => if i == 0 then .timeoutExc
          else .response 200 "OK" .null)).result = .ok .null ∧
    (_request_with_retries "GET" "https://api.crossref.org/works" [] [] 30 2
        (fun i => if i == 0 then .timeoutExc
          else .response 200 "OK" .null)).sleeps =
      (List.range 1).map (fun i => BACKOFF_FACTOR * 2 ^ i) ∧
    (_request_with_retries "GET" "https://api.crossref.org/works" [] [] 30 2
        (fun i => if i == 0 then .timeoutExc
          else .response 200 "OK" .null)).requests.length = 1 + 1 :=
  retry_success_after_transient_prefix "GET" "https://api.crossref.org/works"
    [] [] 30 2
    (fun i => if i == 0 then .timeoutExc else .response 200 "OK" .null)
    1 200 "OK" .null (by decide)
    (by intro i hi; have hz : i = 0 := Nat.lt_one_iff.mp hi; subst hz; rfl)
    rfl (by decide)

/-- C2: on the first attempt whose HTTP status is in [400, 500) — after any
number k of transient failures, at any point of the retry budget — the
executor fails at once with the HTTP error naming the status code, reason
phrase and URL: no sleep is added for that failure and no further attempt is
made (exactly k+1 requests, exactly the k earlier backoff sleeps). -/
theorem retry_4xx_fails_immediately
    (method url : String) (headers params : List (String × String))
    (timeout retries : Int) (outcomes : Nat → AttemptResult)
    (k status : Nat) (reason : String) (body : Json)
    (hk : (k : Int) < retries)
    (ht : ∀ i, i < k → isTransient (outcomes i) = true)
    (hs : outcomes k = .response status reason body)
    (h4xx : 400 ≤ status ∧ status < 500) :
    (_request_with_retries method url headers params timeout retries
        outcomes).result =
      .error (.httpErr status (httpMsg status reason url)) ∧
    (_request_with_retries method url headers params timeout retries
        outcomes).sleeps =
      (List.range k).map (fun i => BACKOFF_FACTOR * 2 ^ i) ∧
    (_request_with_retries method url headers params timeout retries
        outcomes).requests.length = k + 1 := by
  have hseg := retryLoop_transient_seg ⟨method, url, headers, params, timeout⟩
    retries outcomes k 0 (by simpa using ht) (by simpa using hk)
  simp only [Nat.sub_zero, Nat.zero_add] at hseg
  obtain ⟨r, hr⟩ : ∃ r, retries.toNat - k = r + 1 :=
    ⟨retries.toNat - k - 1, by omega⟩
  rw [hr, retryLoop_exit_http _ _ _ _ _ _ _ _ hs ⟨h4xx.1, by omega⟩
    (fun hc => by omega)] at hseg
  unfold _request_with_retries
  rw [hseg]
  refine ⟨rfl, by simp, by simp⟩

theorem retry_4xx_fails_immediately_witness :
    (_request_with_retries "GET" "https://api.crossref.org/works/x" [] [] 30 3
        (fun _ => .response 404 "Not Found" .null)).result =
      .error (.httpErr 404
        (httpMsg 404 "Not Found" "https://api.crossref.org/works/x")) ∧
    (_request_with_retries "GET" "https://api.crossref.org/works/x" [] [] 30 3
        (fun _ => .response 404 "Not Found" .null)).sleeps =
      (List.range 0).map (fun i => BACKOFF_FACTOR * 2 ^ i) ∧
    (_request_with_retries "GET" "https://api.crossref.org/works/x" [] [] 30 3
        (fun _ => .response 404 "Not Found" .null)).requests.length = 0 + 1 :=
  retry_4xx_fails_immediately "GET" "https://api.crossref.org/works/x" [] []
    30 3 (fun _ => .response 404 "Not Found" .null) 0 404 "Not Found" .null
    (by decide) (by intro i hi; omega) rfl (by decide)

/-- C3: for any retries at least 1, when every attempt fails transiently
(timeout, 5xx, or other network exception), the executor raises the terminal
error matching the kind of the last attempt's failure — the Timeout message
naming the configured timeout and the attempt count, the HTTP message naming
status code and URL, or the network message wrapping the cause — and never
the internal-invariant (bug) error. -/
theorem retry_exhaustion_matches_last_failure
    (method url : String) (headers params : List (String × String))
    (timeout retries : Int) (outcomes : Nat → AttemptResult)
    (hpos : 1 ≤ retries)
    (ht : ∀ i, i < retries.toNat → isTransient (outcomes i) = true) :
    (_request_with_retries method url headers params timeout retries
        outcomes).result =
      .error (terminalErr timeout retries url (retries.toNat - 1)
        (outcomes (retries.toNat - 1))) ∧
    ∀ m,
      (_request_with_retries method url headers params timeout retries
          outcomes).result ≠ .error (.bugErr m) := by
  set k := retries.toNat - 1 with hkdef
  have hk : (k : Int) < retries := by omega
  have hseg := retryLoop_transient_seg ⟨method, url, headers, params, timeout⟩
    retries outcomes k 0 (by intro i hi; simpa using ht i (by omega))
    (by simpa using hk)
  simp only [Nat.sub_zero, Nat.zero_add] at hseg
  have hrem : retries.toNat - k = 0 + 1 := by omega
  rw [hrem] at hseg
  have hnlt : ¬((k : Int) < retries - 1) := by omega
  have hlast := ht k (by omega)
  have hexit : retryLoop ⟨method, url, headers, params, timeout⟩ retries
      outcomes k (0 + 1) =
      ⟨.error (terminalErr timeout retries url k (outcomes k)), [],
        [⟨method, url, headers, params, timeout⟩]⟩ := by
    cases hoc : outcomes k with
    | response status reason body =>
      rw [hoc] at hlast
      have h56 : 500 ≤ status ∧ status < 600 := by
        simpa [isTransient] using hlast
      rw [retryLoop_exit_http _ _ _ _ _ _ _ _ hoc ⟨by omega, h56.2⟩
        (fun hc => hnlt hc.2)]
      simp [terminalErr, hoc]
    | timeoutExc =>
      rw [retryLoop_exit_timeout _ _ _ _ _ hoc hnlt]
      simp [terminalErr, hoc]
    | requestExc cause =>
      rw [retryLoop_exit_network _ _ _ _ _ _ hoc hnlt]
      simp [terminalErr, hoc]
  rw [hexit] at hseg
  unfold _request_with_retries
  rw [hseg]
  refine ⟨rfl, fun m => ?_⟩
  cases hoc : outcomes k <;> simp [terminalErr, hoc]

theorem retry_exhaustion_matches_last_failure_witness :
    (_request_with_retries "GET" "https://api.crossref.org/works" [] [] 30 2
        (fun _ => AttemptResult.timeoutExc)).result =
      .error (terminalErr 30 2 "https://api.crossref.org/works"
        ((2 : Int).toNat - 1) ((fun _ => AttemptResult.timeoutExc)
          ((2 : Int).toNat - 1))) ∧
    ∀ m,
      (_request_with_retries "GET" "https://api.crossref.org/works" [] [] 30 2
          (fun _ => AttemptResult.timeoutExc)).result ≠ .error (.bugErr m) :=
  retry_exhaustion_matches_last_failure "GET" "https://api.crossref.org/works"
    [] [] 30 2 (fun _ => AttemptResult.timeoutExc) (by decide)
    (by intro i _; rfl)

/-- C4: with a positive retry budget, for every sequence of per-attempt
outcomes the executor either returns a response body or raises one of the
classified terminal errors (Timeout, http-status, network); the internal-bug
fallthrough is unreachable, and were the loop ever to exit, it would yield
the distinct internal-bug failure rather than being silently swallowed. -/
theorem retry_total_never_internal_bug
    (method url : String) (headers params : List (String × String))
    (timeout retries : Int) (outcomes : Nat → AttemptResult)
    (hpos : 1 ≤ retries) :
    ((∃ b, (_request_with_retries method url headers params timeout retries
        outcomes).result = .ok b) ∨
     (∃ m, (_request_with_retries method url headers params timeout retries
        outcomes).result = .error (.timeoutErr m)) ∨
     (∃ s m, (_request_with_retries method url headers params timeout retries
        outcomes).result = .error (.httpErr s m)) ∨
     (∃ m, (_request_with_retries method url headers params timeout retries
        outcomes).result = .error (.networkErr m))) ∧
    (∀ m, (_request_with_retries method url headers params timeout retries
        outcomes).result ≠ .error (.bugErr m)) ∧
    (∀ (req : RequestDescriptor) (attempt : Nat),
      retryLoop req retries outcomes attempt 0 =
        ⟨.error (.bugErr bugMsg), [], []⟩) := by
  have hnb : ∀ m, (_request_with_retries method url headers params timeout
      retries outcomes).result ≠ .error (.bugErr m) := by
    intro m
    unfold _request_with_retries
    exact retryLoop_no_bug _ _ _ retries.toNat 0 (by omega) (by omega) m
  refine ⟨?_, hnb, fun req a => rfl⟩
  cases hres : (_request_with_retries method url headers params timeout
      retries outcomes).result with
  | ok b => exact Or.inl ⟨b, rfl⟩
  | error e =>
    cases e with
    | timeoutErr m => exact Or.inr (Or.inl ⟨m, rfl⟩)
    | httpErr s m => exact Or.inr (Or.inr (Or.inl ⟨s, m, rfl⟩))
    | networkErr m => exact Or.inr (Or.inr (Or.inr ⟨m, rfl⟩))
    | bugErr m => exact absurd hres (hnb m)

theorem retry_total_never_internal_bug_witness :
    ((∃ b, (_request_with_retries "GET" "u" [] [] 30 1
        (fun _ => AttemptResult.response 200 "OK" .null)).result = .ok b) ∨
     (∃ m, (_request_with_retries "GET" "u" [] [] 30 1
        (fun _ => AttemptResult.response 200 "OK" .null)).result =
          .error (.timeoutErr m)) ∨
     (∃ s m, (_request_with_retries "GET" "u" [] [] 30 1
        (fun _ => AttemptResult.response 200 "OK" .null)).result =
          .error (.httpErr s m)) ∨
     (∃ m, (_request_with_retries "GET" "u" [] [] 30 1
        (fun _ => AttemptResult.response 200 "OK" .null)).result =
          .error (.networkErr m))) ∧
    (∀ m, (_request_with_retries "GET" "u" [] [] 30 1
        (fun _ => AttemptResult.response 200 "OK" .null)).result ≠
      .error (.bugErr m)) ∧
    (∀ (req : RequestDescriptor) (attempt : Nat),
      retryLoop req 1 (fun _ => AttemptResult.response 200 "OK" .null)
        attempt 0 = ⟨.error (.bugErr bugMsg), [], []⟩) :=
  retry_total_never_internal_bug "GET" "u" [] [] 30 1
    (fun _ => AttemptResult.response 200 "OK" .null) (by decide)

/-- C10: when the executor is called with retries at most 0 (the CLI accepts
any integer for --retries), the loop body never runs: no HTTP request is
issued, no sleep occurs, and the function raises the internal-bug error of
the fallthrough branch. -/
theorem retry_nonpositive_retries_bug
    (method url : String) (headers params : List (String × String))
    (timeout retries : Int) (outcomes : Nat → AttemptResult)
    (hnp : retries ≤ 0) :
    _request_with_retries method url headers params timeout retries outcomes =
      ⟨.error (.bugErr bugMsg), [], []⟩ := by
  unfold _request_with_retries
  rw [Int.toNat_of_nonpos hnp]
  rfl

theorem retry_nonpositive_retries_bug_witness :
    _request_with_retries "GET" "u" [] [] 30 0
        (fun _ => AttemptResult.timeoutExc) =
      ⟨.error (.bugErr bugMsg), [], []⟩ :=
  retry_nonpositive_retries_bug "GET" "u" [] [] 30 0
    (fun _ => AttemptResult.timeoutExc) (by decide)

/-- C5 counterexample: the 404 remap of crossref_get is a substring test on
the error message, so it also fires on errors that are not 404-class.  With
DOI "HTTP 404" and one attempt answered by HTTP 500, the executor's terminal
error is the 500 http error (its message names the URL, which contains the
text HTTP 404), yet crossref_get re-maps it to the DOI-not-found exit
instead of passing it through unchanged. -/
theorem crossref_get_passthrough_counterexample :
    (crossref_getTrace "HTTP 404" 30 1 none
        (fun _ => AttemptResult.response 500 "Internal Server Error"
          (.obj []))).result =
      .error (.httpErr 500 (httpMsg 500 "Internal Server Error"
        (CROSSREF_BASE_URL ++ "/works/HTTP 404"))) ∧
    crossref_get "HTTP 404" 30 1 none
        (fun _ => AttemptResult.response 500 "Internal Server Error"
          (.obj [])) =
      .error (.notFound "[Error] DOI not found on CrossRef: HTTP 404") ∧
    AdapterError.notFound "[Error] DOI not found on CrossRef: HTTP 404" ≠
      AdapterError.fromExecutor (.httpErr 500
        (httpMsg 500 "Internal Server Error"
          (CROSSREF_BASE_URL ++ "/works/HTTP 404"))) :=
  ⟨rfl, rfl, fun h => AdapterError.noConfusion h⟩

/-- C5 (amended): crossref_get re-maps a propagated executor error to the
specific DOI-not-found failure citing the identifier exactly when the error
message contains the substring HTTP 404 — which every 404-class http error
message does — and passes every error whose message does not contain that
substring through unchanged.  (The claim as frozen fails: a non-404 error
whose message happens to contain the text HTTP 404, e.g. in the URL, is
also re-mapped.) -/
theorem crossref_get_remap_by_substring
    (doi : String) (timeout retries : Int) (env : Option String)
    (outcomes : Nat → AttemptResult) (e : ReqError)
    (he : (crossref_getTrace doi timeout retries env outcomes).result =
      .error e) :
    (pySubstr "HTTP 404" e.message = true →
      crossref_get doi timeout retries env outcomes =
        .error (.notFound ("[Error] DOI not found on CrossRef: " ++ doi))) ∧
    (pySubstr "HTTP 404" e.message = false →
      crossref_get doi timeout retries env outcomes =
        .error (.fromExecutor e)) ∧
    (∀ reason url, pySubstr "HTTP 404" (httpMsg 404 reason url) = true) := by
  refine ⟨fun hp => ?_, fun hp => ?_, pySubstr_httpMsg_404⟩
  · simp only [crossref_get, he]
    simp [hp]
  · simp only [crossref_get, he]
    simp [hp]

theorem crossref_get_remap_by_substring_witness :
    (pySubstr "HTTP 404"
        (ReqError.httpErr 404 (httpMsg 404 "Not Found"
          (CROSSREF_BASE_URL ++ "/works/10.1/x"))).message = true →
      crossref_get "10.1/x" 30 3 none
          (fun _ => AttemptResult.response 404 "Not Found" (.obj [])) =
        .error (.notFound ("[Error] DOI not found on CrossRef: " ++
          "10.1/x"))) ∧
    (pySubstr "HTTP 404"
        (ReqError.httpErr 404 (httpMsg 404 "Not Found"
          (CROSSREF_BASE_URL ++ "/works/10.1/x"))).message = false →
      crossref_get "10.1/x" 30 3 none
          (fun _ => AttemptResult.response 404 "Not Found" (.obj [])) =
        .error (.fromExecutor (.httpErr 404 (httpMsg 404 "Not Found"
          (CROSSREF_BASE_URL ++ "/works/10.1/x"))))) ∧
    (∀ reason url, pySubstr "HTTP 404" (httpMsg 404 reason url) = true) :=
  crossref_get_remap_by_substring "10.1/x" 30 3 none
    (fun _ => AttemptResult.response 404 "Not Found" (.obj []))
    (.httpErr 404 (httpMsg 404 "Not Found"
      (CROSSREF_BASE_URL ++ "/works/10.1/x"))) rfl

/-- C6: when the upstream answers an ISBN lookup with 200 and a JSON object
envelope, openlib_get returns the sub-structure stored under the key
ISBN:(normalized isbn); when that key is absent the result is the empty
object — a successful, non-error outcome. -/
theorem openlib_get_key_lookup
    (isbn : String) (timeout retries : Int) (env : Option String)
    (outcomes : Nat → AttemptResult) (fields : List (String × Json))
    (status : Nat) (reason : String)
    (hpos : 1 ≤ retries)
    (h0 : outcomes 0 = .response status reason (.obj fields))
    (h2xx : 200 ≤ status ∧ status < 300) :
    openlib_get isbn timeout retries env outcomes =
      .ok (Json.getD (.obj fields) ("ISBN:" ++ normalizeIsbn isbn)
        (.obj [])) ∧
    (Json.getKey (.obj fields) ("ISBN:" ++ normalizeIsbn isbn) = none →
      openlib_get isbn timeout retries env outcomes = .ok (.obj [])) ∧
    (∀ v, Json.getKey (.obj fields) ("ISBN:" ++ normalizeIsbn isbn) = some v →
      openlib_get isbn timeout retries env outcomes = .ok v) := by
  have htr : openlib_getTrace isbn timeout retries env outcomes =
      ⟨.ok (.obj fields), [],
        [⟨"GET", OPENLIB_BASE_URL, [("User-Agent", USER_AGENT env)],
          [("bibkeys", "ISBN:" ++ normalizeIsbn isbn), ("format", "json"),
           ("jscmd", "data")], timeout⟩]⟩ := by
    unfold openlib_getTrace
    exact request_success_first _ _ _ _ _ _ _ _ _ _ hpos h0 (by omega)
  have hmain : openlib_get isbn timeout retries env outcomes =
      .ok (Json.getD (.obj fields) ("ISBN:" ++ normalizeIsbn isbn)
        (.obj [])) := by
    simp only [openlib_get, htr]
  refine ⟨hmain, fun hnone => ?_, fun v hsome => ?_⟩
  · rw [hmain, getD_of_getKey_none _ _ _ hnone]
  · rw [hmain, getD_of_getKey_some _ _ _ _ hsome]

theorem openlib_get_key_lookup_witness :
    openlib_get "978-2-07-036822-8" 30 3 none
        (fun _ => AttemptResult.response 200 "OK" (.obj [])) =
      .ok (Json.getD (.obj [])
        ("ISBN:" ++ normalizeIsbn "978-2-07-036822-8") (.obj [])) ∧
    (Json.getKey (.obj [])
        ("ISBN:" ++ normalizeIsbn "978-2-07-036822-8") = none →
      openlib_get "978-2-07-036822-8" 30 3 none
          (fun _ => AttemptResult.response 200 "OK" (.obj [])) =
        .ok (.obj [])) ∧
    (∀ v, Json.getKey (.obj [])
        ("ISBN:" ++ normalizeIsbn "978-2-07-036822-8") = some v →
      openlib_get "978-2-07-036822-8" 30 3 none
          (fun _ => AttemptResult.response 200 "OK" (.obj [])) = .ok v) :=
  openlib_get_key_lookup "978-2-07-036822-8" 30 3 none
    (fun _ => AttemptResult.response 200 "OK" (.obj [])) [] 200 "OK"
    (by decide) rfl (by decide)

/-- C7: when the upstream answers a search with 200 and the unwrapped items
list is empty, crossref_search terminates with the informational
empty-result outcome (the no-results message), which is a different error
constructor from a propagated network failure; when the list is non-empty
the list is returned unchanged. -/
theorem crossref_search_empty_vs_nonempty
    (query : String) (rows : Int) (timeout retries : Int) (env : Option String)
    (outcomes : Nat → AttemptResult) (status : Nat) (reason : String)
    (body : Json) (xs : List Json)
    (hpos : 1 ≤ retries)
    (h0 : outcomes 0 = .response status reason body)
    (h2xx : 200 ≤ status ∧ status < 300)
    (hitems : (body.getD "message" (.obj [])).getD "items" (.arr []) =
      .arr xs) :
    (xs = [] → crossref_search query rows timeout retries env outcomes =
      .error (.emptyResult "[Info] No results returned – check your query.")) ∧
    (xs ≠ [] → crossref_search query rows timeout retries env outcomes =
      .ok (.arr xs)) ∧
    (∀ m e, AdapterError.emptyResult m ≠ AdapterError.fromExecutor e) := by
  have htr : crossref_searchTrace query rows timeout retries env outcomes =
      ⟨.ok body, [],
        [⟨"GET", CROSSREF_BASE_URL ++ "/works", HEADERS env,
          [("query", query), ("rows", toString rows)], timeout⟩]⟩ := by
    unfold crossref_searchTrace
    exact request_success_first _ _ _ _ _ _ _ _ _ _ hpos h0 (by omega)
  have hred : crossref_search query rows timeout retries env outcomes =
      if (Json.arr xs).isFalsy then
        .error (.emptyResult "[Info] No results returned – check your query.")
      else .ok (.arr xs) := by
    simp only [crossref_search, htr, hitems]
  refine ⟨fun hxs => ?_, fun hxs => ?_,
    fun m e h => AdapterError.noConfusion h⟩
  · subst hxs
    rw [hred]
    simp [Json.isFalsy]
  · have hne : xs.isEmpty = false := by
      cases xs
      · exact absurd rfl hxs
      · rfl
    rw [hred]
    simp [Json.isFalsy, hne]

theorem crossref_search_empty_vs_nonempty_witness :
    (([] : List Json) = [] → crossref_search "histoire" 3 30 3 none
        (fun _ => AttemptResult.response 200 "OK"
          (.obj [("message", .obj [("items", .arr [])])])) =
      .error (.emptyResult "[Info] No results returned – check your query.")) ∧
    (([] : List Json) ≠ [] → crossref_search "histoire" 3 30 3 none
        (fun _ => AttemptResult.response 200 "OK"
          (.obj [("message", .obj [("items", .arr [])])])) =
      .ok (.arr [])) ∧
    (∀ m e, AdapterError.emptyResult m ≠ AdapterError.fromExecutor e) :=
  crossref_search_empty_vs_nonempty "histoire" 3 30 3 none
    (fun _ => AttemptResult.response 200 "OK"
      (.obj [("message", .obj [("items", .arr [])])]))
    200 "OK" (.obj [("message", .obj [("items", .arr [])])]) []
    (by decide) rfl (by decide) rfl

/-- C8 counterexample: the request issued by openlib_get carries only the
User-Agent header — the Accept header required by the claim for all three
adapters is absent. -/
theorem openlib_missing_accept_counterexample :
    (openlib_getTrace "9782070368228" 30 1 none
        (fun _ => AttemptResult.response 200 "OK" (.obj []))).requests =
      [⟨"GET", OPENLIB_BASE_URL, [("User-Agent", USER_AGENT none)],
        [("bibkeys", "ISBN:9782070368228"), ("format", "json"),
         ("jscmd", "data")], 30⟩] ∧
    ("Accept", "application/json") ∉ [("User-Agent", USER_AGENT none)] := by
  exact ⟨rfl, by decide⟩

/-- C8 (amended): every request issued by crossref_search and crossref_get
carries both the identifying User-Agent header (application name, version,
operator email from the environment or the placeholder default) and the
Accept: application/json header; every request issued by openlib_get carries
only the User-Agent header, with no Accept header. -/
theorem adapter_request_headers
    (query doi isbn : String) (rows timeout retries : Int)
    (env : Option String) (ocS ocG ocB : Nat → AttemptResult)
    (r : RequestDescriptor) :
    (r ∈ (crossref_searchTrace query rows timeout retries env ocS).requests →
      ("User-Agent", USER_AGENT env) ∈ r.headers ∧
      ("Accept", "application/json") ∈ r.headers) ∧
    (r ∈ (crossref_getTrace doi timeout retries env ocG).requests →
      ("User-Agent", USER_AGENT env) ∈ r.headers ∧
      ("Accept", "application/json") ∈ r.headers) ∧
    (r ∈ (openlib_getTrace isbn timeout retries env ocB).requests →
      r.headers = [("User-Agent", USER_AGENT env)]) := by
  refine ⟨fun hm => ?_, fun hm => ?_, fun hm => ?_⟩
  · unfold crossref_searchTrace _request_with_retries at hm
    have hr := retryLoop_mem_requests _ _ _ _ _ _ hm
    subst hr
    exact ⟨by simp [HEADERS], by simp [HEADERS]⟩
  · unfold crossref_getTrace _request_with_retries at hm
    have hr := retryLoop_mem_requests _ _ _ _ _ _ hm
    subst hr
    exact ⟨by simp [HEADERS], by simp [HEADERS]⟩
  · unfold openlib_getTrace _request_with_retries at hm
    have hr := retryLoop_mem_requests _ _ _ _ _ _ hm
    subst hr
    rfl

theorem adapter_request_headers_witness :
    (("User-Agent", USER_AGENT none) ∈
        (⟨"GET", CROSSREF_BASE_URL ++ "/works", HEADERS none,
          [("query", "q"), ("rows", toString (20 : Int))], 30⟩ :
          RequestDescriptor).headers ∧
      ("Accept", "application/json") ∈
        (⟨"GET", CROSSREF_BASE_URL ++ "/works", HEADERS none,
          [("query", "q"), ("rows", toString (20 : Int))], 30⟩ :
          RequestDescriptor).headers) ∧
    (⟨"GET", OPENLIB_BASE_URL, [("User-Agent", USER_AGENT none)],
        [("bibkeys", "ISBN:1"), ("format", "json"), ("jscmd", "data")], 30⟩ :
        RequestDescriptor).headers = [("User-Agent", USER_AGENT none)] :=
  ⟨(adapter_request_headers "q" "d" "1" 20 30 1 none
      (fun _ => AttemptResult.timeoutExc) (fun _ => AttemptResult.timeoutExc)
      (fun _ => AttemptResult.timeoutExc) _).1 (by decide),
   (adapter_request_headers "q" "d" "1" 20 30 1 none
      (fun _ => AttemptResult.timeoutExc) (fun _ => AttemptResult.timeoutExc)
      (fun _ => AttemptResult.timeoutExc) _).2.2 (by decide)⟩

/-- C9: the ISBN normalization of openlib_get (remove every hyphen, then
trim surrounding whitespace) is idempotent, and the two spellings of the
sample ISBN normalize to the same key string. -/
theorem normalize_isbn_idempotent :
    (∀ s : String, normalizeIsbn (normalizeIsbn s) = normalizeIsbn s) ∧
    normalizeIsbn "978-2-07-036822-8" = normalizeIsbn "9782070368228" :=
  ⟨normalizeIsbn_idem, by decide⟩

end CiteGuard
